import Mathlib

/-!
Shallow embedding of the nanoclaw IPC watcher core (`startIpcWatcher`,
`processTaskIpc` and the action handlers), together with the task store and
group registry it mutates.  Pure source functions become Lean functions;
filesystem/external effects become explicit parameters (an environment of
external results) and explicit outcome values mirroring each log/dispatch
site.  Machine time is modelled as `Int` epoch milliseconds.
-/

namespace Nanoclaw

/-- A tenant registration record (source: `RegisteredGroup` in types.ts,
as constructed in the `register_group` branch of `processTaskIpc`).
`added_at` (an ISO string in the source) is modelled as epoch milliseconds. -/
structure RegisteredGroup where
  name : String
  folder : String
  trigger : String
  added_at : Int
  requiresTrigger : Option Bool
  containerConfig : Option String
deriving Repr, DecidableEq

/-- The group registry: `Record<string, RegisteredGroup>` keyed by jid,
modelled as an association list. -/
abbrev Registry := List (String × RegisteredGroup)

/-- `registeredGroups[jid]` lookup. -/
def lookupGroup (r : Registry) (jid : String) : Option RegisteredGroup :=
  (r.find? (fun p => p.1 == jid)).map (fun p => p.2)

/-- Modelled from the spec: the registry writer `deps.registerGroup`
(create/overwrite the RegisteredGroup for a jid); the storage mechanism is
out of scope of the source under src/. -/
def registerGroupUpsert (r : Registry) (jid : String) (g : RegisteredGroup) :
    Registry :=
  if (r.find? (fun p => p.1 == jid)).isSome then
    r.map (fun p => if p.1 == jid then (jid, g) else p)
  else
    r ++ [(jid, g)]

/-- A scheduled task record (source: the object passed to `createTask`).
`next_run`/`created_at` (ISO strings in the source) are modelled as epoch
milliseconds; `next_run` is nullable. -/
structure Task where
  id : String
  group_folder : String
  chat_jid : String
  prompt : String
  schedule_type : String
  schedule_value : String
  context_mode : String
  next_run : Option Int
  status : String
  created_at : Int
deriving Repr, DecidableEq

/-- The persisted task collection. -/
abbrev TaskStore := List Task

/-- Modelled from the spec: `getTaskById` from db.ts (not under src/) —
fetch the Task record with the given id. -/
def getTaskById (ts : TaskStore) (id : String) : Option Task :=
  ts.find? (fun t => t.id == id)

/-- Modelled from the spec: `createTask` from db.ts (not under src/) —
insert a new Task record. -/
def createTask (ts : TaskStore) (t : Task) : TaskStore :=
  ts ++ [t]

/-- Modelled from the spec: `updateTask(id, { status })` from db.ts (not
under src/) — set the status of the Task with the given id, if present. -/
def updateTaskStatus (ts : TaskStore) (id : String) (st : String) : TaskStore :=
  ts.map (fun t => if t.id == id then { t with status := st } else t)

/-- Modelled from the spec: `deleteTask` from db.ts (not under src/) —
remove the Task record with the given id. -/
def deleteTask (ts : TaskStore) (id : String) : TaskStore :=
  ts.filter (fun t => !(t.id == id))

/-- The mutable host state the watcher operates on: the Task Store and the
group registry. -/
structure HostState where
  tasks : TaskStore
  registry : Registry
deriving Repr, DecidableEq

/-- JavaScript truthiness of an optional string field (`data.x && ...`):
absent (undefined) and the empty string are falsy. -/
def truthy : Option String → Bool
  | none => false
  | some s => !(s == "")

/-- JavaScript `parseInt(s, 10)`: skip leading whitespace, an optional
sign, then the longest run of decimal digits; NaN (here `none`) when that
run is empty. -/
def jsParseInt (s : String) : Option Int :=
  let cs := s.data.dropWhile (fun c =>
    c == ' ' || c == '\t' || c == '\n' || c == '\r')
  let signAndRest : Int × List Char :=
    match cs with
    | '-' :: rest => (-1, rest)
    | '+' :: rest => (1, rest)
    | rest => (1, rest)
  let digits := signAndRest.2.takeWhile (fun c => c.isDigit)
  if digits.isEmpty then none
  else
    some (signAndRest.1 *
      (digits.foldl (fun a c => a * 10 + (c.toNat - '0'.toNat)) 0 : Nat))

/-- The parsed fields of a task-channel request file (source: the `data`
parameter of `processTaskIpc` plus the fields the action handlers read).
The source field `end` is modelled as `endField`. -/
structure IpcData where
  type : String := ""
  taskId : Option String := none
  prompt : Option String := none
  schedule_type : Option String := none
  schedule_value : Option String := none
  context_mode : Option String := none
  groupFolder : Option String := none
  chatJid : Option String := none
  targetJid : Option String := none
  jid : Option String := none
  name : Option String := none
  folder : Option String := none
  trigger : Option String := none
  requiresTrigger : Option Bool := none
  containerConfig : Option String := none
  event_id : Option String := none
  summary : Option String := none
  start : Option String := none
  endField : Option String := none
deriving Repr, DecidableEq

/-- The environment of external time/parsing facilities used by the
Schedule Calculator: `Date.now()`, the cron-parser library (`none` when
`CronExpressionParser.parse` throws, otherwise the next occurrence), the
`new Date(string)` parser (`none` when the result is NaN), and the
generated task id. -/
structure SchedEnv where
  now : Int
  cronNext : String → Option Int
  parseDate : String → Option Int
  freshId : String

/-- External facts the action handlers depend on: whether both OAuth files
exist, and whether the Google API call (or the credential read/parse inside
the try block) fails. -/
structure ActionEnv where
  tokenExists : Bool
  credsExists : Bool
  apiFails : Bool
deriving Repr, DecidableEq

/-- Behaviour of the external collaborators reachable from the task
channel: whether the metadata resync throws, and the action handlers'
environment. -/
structure DepsBehavior where
  syncFails : Bool
  actionEnv : ActionEnv
deriving Repr, DecidableEq

/-- The logged result of one action handler run: all failure modes are
logged and swallowed inside the handler. -/
inductive ActionLog
  | oauthMissing
  | missingFields
  | apiError
  | done
deriving Repr, DecidableEq

/-- `processSendGmail`: OAuth-file check, then the email build/send inside
try/catch; no required-field check (every field defaults). -/
def processSendGmail (env : ActionEnv) (_d : IpcData) : ActionLog :=
  if !(env.tokenExists && env.credsExists) then .oauthMissing
  else if env.apiFails then .apiError
  else .done

/-- `processListCalendarEvents`: OAuth-file check, then the list call
inside try/catch; no required-field check (range/limit default). -/
def processListCalendarEvents (env : ActionEnv) (_d : IpcData) : ActionLog :=
  if !(env.tokenExists && env.credsExists) then .oauthMissing
  else if env.apiFails then .apiError
  else .done

/-- `processGetCalendarEvent`: OAuth-file check, then the `event_id`
required-field check, then the get call inside try/catch. -/
def processGetCalendarEvent (env : ActionEnv) (d : IpcData) : ActionLog :=
  if !(env.tokenExists && env.credsExists) then .oauthMissing
  else if !(truthy d.event_id) then .missingFields
  else if env.apiFails then .apiError
  else .done

/-- `processCreateCalendarEvent`: OAuth-file check, then the
`summary`/`start`/`end` required-field check, then the insert call. -/
def processCreateCalendarEvent (env : ActionEnv) (d : IpcData) : ActionLog :=
  if !(env.tokenExists && env.credsExists) then .oauthMissing
  else if !(truthy d.summary) || !(truthy d.start) || !(truthy d.endField) then
    .missingFields
  else if env.apiFails then .apiError
  else .done

/-- `processUpdateCalendarEvent`: OAuth-file check, then the `event_id`
required-field check, then the get+update calls inside try/catch. -/
def processUpdateCalendarEvent (env : ActionEnv) (d : IpcData) : ActionLog :=
  if !(env.tokenExists && env.credsExists) then .oauthMissing
  else if !(truthy d.event_id) then .missingFields
  else if env.apiFails then .apiError
  else .done

/-- `processDeleteCalendarEvent`: OAuth-file check, then the `event_id`
required-field check, then the delete call inside try/catch. -/
def processDeleteCalendarEvent (env : ActionEnv) (d : IpcData) : ActionLog :=
  if !(env.tokenExists && env.credsExists) then .oauthMissing
  else if !(truthy d.event_id) then .missingFields
  else if env.apiFails then .apiError
  else .done

/-- The task-control operations sharing the ownership rule. -/
inductive CtlOp
  | pause
  | resume
  | cancel
deriving Repr, DecidableEq

/-- One outcome per log/dispatch site of `processTaskIpc`, mirroring its
branch structure. -/
inductive TaskOutcome
  | scheduleIncomplete
  | scheduleTargetUnregistered (targetJid : String)
  | scheduleUnauthorized (sourceGroup targetFolder : String)
  | scheduleInvalidCron (v : String)
  | scheduleInvalidInterval (v : String)
  | scheduleInvalidTimestamp (v : String)
  | taskCreated (t : Task)
  | ctlDone (op : CtlOp) (id : String)
  | ctlDenied (op : CtlOp) (id : String)
  | ctlNoId (op : CtlOp)
  | refreshDone
  | refreshDenied
  | registerDone (jid : String)
  | registerDenied
  | registerInvalid
  | actionDone (kind : String) (log : ActionLog)
  | unknownType (t : String)
deriving Repr, DecidableEq

/-- The Schedule Calculator of the `schedule_task` branch: the
`let nextRun = null; if cron / else if interval / else if once` chain.
`.error o` is the `break` with the corresponding warning; an unrecognized
`schedule_type` leaves `nextRun` null and falls through (`.ok none`). -/
def computeNextRun (env : SchedEnv) (stype sv : String) :
    Except TaskOutcome (Option Int) :=
  if stype == "cron" then
    match env.cronNext sv with
    | some t => .ok (some t)
    | none => .error (.scheduleInvalidCron sv)
  else if stype == "interval" then
    match jsParseInt sv with
    | some ms => if ms ≤ 0 then .error (.scheduleInvalidInterval sv)
                 else .ok (some (env.now + ms))
    | none => .error (.scheduleInvalidInterval sv)
  else if stype == "once" then
    match env.parseDate sv with
    | some t => .ok (some t)
    | none => .error (.scheduleInvalidTimestamp sv)
  else
    .ok none

/-- The Task object built by the `schedule_task` branch and handed to
`createTask`, including the `context_mode` normalization. -/
def builtTask (env : SchedEnv) (d : IpcData)
    (targetFolder targetJid : String) (nextRun : Option Int) : Task :=
  { id := env.freshId
    group_folder := targetFolder
    chat_jid := targetJid
    prompt := d.prompt.getD ""
    schedule_type := d.schedule_type.getD ""
    schedule_value := d.schedule_value.getD ""
    context_mode :=
      if d.context_mode == some "group"
          || d.context_mode == some "isolated" then
        d.context_mode.getD "isolated"
      else "isolated"
    next_run := nextRun
    status := "active"
    created_at := env.now }

/-- The `case 'schedule_task'` branch of `processTaskIpc`: required-field
truthiness check, target resolution, the ownership rule
(`!isMain && targetFolder !== sourceGroup` blocks), the Schedule
Calculator, then `createTask`. -/
def scheduleTaskBranch (env : SchedEnv) (d : IpcData)
    (sourceGroup : String) (isMain : Bool) (st : HostState) :
    HostState × TaskOutcome :=
  if truthy d.prompt && truthy d.schedule_type && truthy d.schedule_value
      && truthy d.targetJid then
    let targetJid := d.targetJid.getD ""
    match lookupGroup st.registry targetJid with
    | none => (st, .scheduleTargetUnregistered targetJid)
    | some targetGroupEntry =>
      let targetFolder := targetGroupEntry.folder
      if !isMain && !(targetFolder == sourceGroup) then
        (st, .scheduleUnauthorized sourceGroup targetFolder)
      else
        match computeNextRun env (d.schedule_type.getD "")
            (d.schedule_value.getD "") with
        | .error o => (st, o)
        | .ok nextRun =>
          let t := builtTask env d targetFolder targetJid nextRun
          ({ st with tasks := createTask st.tasks t }, .taskCreated t)
  else (st, .scheduleIncomplete)

/-- The `case 'pause_task'` branch: existence plus ownership gate, then
`updateTask(id, { status: 'paused' })`; a missing task falls into the same
denial log as an unauthorized one. -/
def pauseTaskBranch (d : IpcData) (sourceGroup : String) (isMain : Bool)
    (st : HostState) : HostState × TaskOutcome :=
  if truthy d.taskId then
    let id := d.taskId.getD ""
    match getTaskById st.tasks id with
    | some task =>
      if isMain || task.group_folder == sourceGroup then
        ({ st with tasks := updateTaskStatus st.tasks id "paused" },
         .ctlDone .pause id)
      else (st, .ctlDenied .pause id)
    | none => (st, .ctlDenied .pause id)
  else (st, .ctlNoId .pause)

/-- The `case 'resume_task'` branch: same gate, status set to `active`. -/
def resumeTaskBranch (d : IpcData) (sourceGroup : String) (isMain : Bool)
    (st : HostState) : HostState × TaskOutcome :=
  if truthy d.taskId then
    let id := d.taskId.getD ""
    match getTaskById st.tasks id with
    | some task =>
      if isMain || task.group_folder == sourceGroup then
        ({ st with tasks := updateTaskStatus st.tasks id "active" },
         .ctlDone .resume id)
      else (st, .ctlDenied .resume id)
    | none => (st, .ctlDenied .resume id)
  else (st, .ctlNoId .resume)

/-- The `case 'cancel_task'` branch: same gate, then `deleteTask`. -/
def cancelTaskBranch (d : IpcData) (sourceGroup : String) (isMain : Bool)
    (st : HostState) : HostState × TaskOutcome :=
  if truthy d.taskId then
    let id := d.taskId.getD ""
    match getTaskById st.tasks id with
    | some task =>
      if isMain || task.group_folder == sourceGroup then
        ({ st with tasks := deleteTask st.tasks id }, .ctlDone .cancel id)
      else (st, .ctlDenied .cancel id)
    | none => (st, .ctlDenied .cancel id)
  else (st, .ctlNoId .cancel)

/-- The `case 'register_group'` branch: main-only, then the four-field
truthiness check, then `deps.registerGroup` (create/overwrite). -/
def registerGroupBranch (env : SchedEnv) (d : IpcData) (isMain : Bool)
    (st : HostState) : HostState × TaskOutcome :=
  if !isMain then (st, .registerDenied)
  else if truthy d.jid && truthy d.name && truthy d.folder
      && truthy d.trigger then
    let jid := d.jid.getD ""
    let g : RegisteredGroup :=
      { name := d.name.getD ""
        folder := d.folder.getD ""
        trigger := d.trigger.getD ""
        added_at := env.now
        requiresTrigger := d.requiresTrigger
        containerConfig := d.containerConfig }
    ({ st with registry := registerGroupUpsert st.registry jid g },
     .registerDone jid)
  else (st, .registerInvalid)

/-- `processTaskIpc` from the source: dispatch on `data.type`, with
identity (`sourceGroup`, `isMain`) taken only from the watcher's arguments.
`.error ()` models a thrown exception escaping to the watcher's per-file
catch (in this core only the awaited `syncGroupMetadata` in the
`refresh_groups` branch can throw; action handlers swallow their own
failures). -/
def processTaskIpc (env : SchedEnv) (deps : DepsBehavior) (d : IpcData)
    (sourceGroup : String) (isMain : Bool) (st : HostState) :
    Except Unit (HostState × TaskOutcome) :=
  match d.type with
  | "schedule_task" => .ok (scheduleTaskBranch env d sourceGroup isMain st)
  | "pause_task" => .ok (pauseTaskBranch d sourceGroup isMain st)
  | "resume_task" => .ok (resumeTaskBranch d sourceGroup isMain st)
  | "cancel_task" => .ok (cancelTaskBranch d sourceGroup isMain st)
  | "refresh_groups" =>
    if isMain then
      if deps.syncFails then .error ()
      else .ok (st, .refreshDone)
    else .ok (st, .refreshDenied)
  | "register_group" => .ok (registerGroupBranch env d isMain st)
  | "send_gmail" =>
    .ok (st, .actionDone "send_gmail" (processSendGmail deps.actionEnv d))
  | "list_calendar_events" =>
    .ok (st, .actionDone "list_calendar_events"
      (processListCalendarEvents deps.actionEnv d))
  | "get_calendar_event" =>
    .ok (st, .actionDone "get_calendar_event"
      (processGetCalendarEvent deps.actionEnv d))
  | "create_calendar_event" =>
    .ok (st, .actionDone "create_calendar_event"
      (processCreateCalendarEvent deps.actionEnv d))
  | "update_calendar_event" =>
    .ok (st, .actionDone "update_calendar_event"
      (processUpdateCalendarEvent deps.actionEnv d))
  | "delete_calendar_event" =>
    .ok (st, .actionDone "delete_calendar_event"
      (processDeleteCalendarEvent deps.actionEnv d))
  | other => .ok (st, .unknownType other)

/-- The parsed fields of a messages-channel request file; the payload
identity fields are carried so their irrelevance is statable. -/
structure MsgData where
  type : String := ""
  chatJid : Option String := none
  text : Option String := none
  groupFolder : Option String := none
  jid : Option String := none
  targetJid : Option String := none
deriving Repr, DecidableEq

/-- Outcome of one messages-channel file: the send was dispatched and
succeeded, dispatched and threw, blocked by the Authorization Gate, or the
file's shape check failed (nothing happens, file still deleted). -/
inductive MsgStep
  | sentOk (jid text : String)
  | sendFailed (jid text : String)
  | blocked (jid : String)
  | skipped
deriving Repr, DecidableEq

/-- The messages-channel body of `startIpcWatcher`'s inner try block:
shape check, authorization against the registry, dispatch to
`deps.sendMessage` with the `ASSISTANT_NAME` display prefix.  `sendOk`
tells whether the external send succeeds (false = it throws). -/
def processMessage (assistantName : String) (registry : Registry)
    (sendOk : String → String → Bool) (d : MsgData)
    (sourceGroup : String) (isMain : Bool) : MsgStep :=
  if d.type == "message" && truthy d.chatJid && truthy d.text then
    let jid := d.chatJid.getD ""
    let txt := assistantName ++ ": " ++ d.text.getD ""
    let targetGroup := lookupGroup registry jid
    if isMain || (match targetGroup with
                  | some g => g.folder == sourceGroup
                  | none => false) then
      if sendOk jid txt then .sentOk jid txt else .sendFailed jid txt
    else .blocked jid
  else .skipped

/-- Disposal of one processed request file: deleted, or moved to the
`errors` quarantine directory under the given name. -/
inductive Disposal
  | deleted
  | quarantined (name : String)
deriving Repr, DecidableEq

/-- Per-file discipline of the tasks channel: parse failure (`none`
content) or a thrown processing failure quarantines the file as
`sourceGroup-file`; otherwise the file is deleted. -/
def handleTaskFile (env : SchedEnv) (deps : DepsBehavior)
    (sourceGroup : String) (isMain : Bool) (st : HostState)
    (file : String) (content : Option IpcData) :
    HostState × Disposal × Option TaskOutcome :=
  match content with
  | none => (st, .quarantined (sourceGroup ++ "-" ++ file), none)
  | some d =>
    match processTaskIpc env deps d sourceGroup isMain st with
    | .ok (st2, o) => (st2, .deleted, some o)
    | .error _ => (st, .quarantined (sourceGroup ++ "-" ++ file), none)

/-- Per-file discipline of the messages channel: parse failure or a
throwing send quarantines the file as `sourceGroup-file`; otherwise
(including authorization denials and shape failures) it is deleted. -/
def handleMessageFile (assistantName : String) (registry : Registry)
    (sendOk : String → String → Bool) (sourceGroup : String) (isMain : Bool)
    (file : String) (content : Option MsgData) : Disposal × Option MsgStep :=
  match content with
  | none => (.quarantined (sourceGroup ++ "-" ++ file), none)
  | some d =>
    match processMessage assistantName registry sendOk d sourceGroup isMain with
    | .sendFailed _ _ => (.quarantined (sourceGroup ++ "-" ++ file), none)
    | step => (.deleted, some step)

/-- The watcher's per-tenant privilege bit:
`const isMain = sourceGroup === MAIN_GROUP_FOLDER`. -/
def isMainOf (mainGroupFolder sourceGroup : String) : Bool :=
  sourceGroup == mainGroupFolder

/-- One poll cycle over one tenant's tasks channel: fold `handleTaskFile`
over the listed files, collecting one disposal per file. -/
def processTaskFiles (env : SchedEnv) (deps : DepsBehavior)
    (sourceGroup : String) (isMain : Bool) (st : HostState)
    (files : List (String × Option IpcData)) :
    HostState × List (String × Disposal) :=
  match files with
  | [] => (st, [])
  | (file, content) :: rest =>
    let r := handleTaskFile env deps sourceGroup isMain st file content
    let rec' := processTaskFiles env deps sourceGroup isMain r.1 rest
    (rec'.1, (file, r.2.1) :: rec'.2)

/-! ### Helper lemmas -/

/-- Dispatch equation: a `schedule_task` file reaches the schedule branch
and never throws. -/
theorem ipcEqSchedule (env : SchedEnv) (deps : DepsBehavior) (d : IpcData)
    (sourceGroup : String) (isMain : Bool) (st : HostState)
    (hty : d.type = "schedule_task") :
    processTaskIpc env deps d sourceGroup isMain st =
      .ok (scheduleTaskBranch env d sourceGroup isMain st) := by
  unfold processTaskIpc
  rw [hty]
  split <;> simp_all

/-- Dispatch equation for `pause_task`. -/
theorem ipcEqPause (env : SchedEnv) (deps : DepsBehavior) (d : IpcData)
    (sourceGroup : String) (isMain : Bool) (st : HostState)
    (hty : d.type = "pause_task") :
    processTaskIpc env deps d sourceGroup isMain st =
      .ok (pauseTaskBranch d sourceGroup isMain st) := by
  unfold processTaskIpc
  rw [hty]
  split <;> simp_all

/-- Dispatch equation for `resume_task`. -/
theorem ipcEqResume (env : SchedEnv) (deps : DepsBehavior) (d : IpcData)
    (sourceGroup : String) (isMain : Bool) (st : HostState)
    (hty : d.type = "resume_task") :
    processTaskIpc env deps d sourceGroup isMain st =
      .ok (resumeTaskBranch d sourceGroup isMain st) := by
  unfold processTaskIpc
  rw [hty]
  split <;> simp_all

/-- Dispatch equation for `cancel_task`. -/
theorem ipcEqCancel (env : SchedEnv) (deps : DepsBehavior) (d : IpcData)
    (sourceGroup : String) (isMain : Bool) (st : HostState)
    (hty : d.type = "cancel_task") :
    processTaskIpc env deps d sourceGroup isMain st =
      .ok (cancelTaskBranch d sourceGroup isMain st) := by
  unfold processTaskIpc
  rw [hty]
  split <;> simp_all

/-- Dispatch equation for `register_group`. -/
theorem ipcEqRegister (env : SchedEnv) (deps : DepsBehavior) (d : IpcData)
    (sourceGroup : String) (isMain : Bool) (st : HostState)
    (hty : d.type = "register_group") :
    processTaskIpc env deps d sourceGroup isMain st =
      .ok (registerGroupBranch env d isMain st) := by
  unfold processTaskIpc
  rw [hty]
  split <;> simp_all

/-- Any `.error` of the Schedule Calculator is one of the three
invalid-descriptor warnings. -/
theorem computeNextRun_error_shape (env : SchedEnv) (stype sv : String)
    (o : TaskOutcome) (h : computeNextRun env stype sv = .error o) :
    o = .scheduleInvalidCron sv ∨ o = .scheduleInvalidInterval sv ∨
      o = .scheduleInvalidTimestamp sv := by
  unfold computeNextRun at h
  repeat' split at h
  all_goals (try simp_all)

/-- For the three recognized schedule types, a successful Schedule
Calculator run always yields an actual instant, never `null`. -/
theorem computeNextRun_rec_isSome (env : SchedEnv) (stype sv : String)
    (h : stype = "cron" ∨ stype = "interval" ∨ stype = "once")
    (nr : Option Int)
    (hok : computeNextRun env stype sv = .ok nr) : ∃ v, nr = some v := by
  unfold computeNextRun at hok
  rcases h with h | h | h <;> subst h <;> repeat' split at hok
  all_goals (try simp_all)
  all_goals exact ⟨_, hok.symm⟩

/-- Schedule branch, missing-field path. -/
theorem scheduleBranch_incomplete (env : SchedEnv) (d : IpcData)
    (sourceGroup : String) (isMain : Bool) (st : HostState)
    (hf : (truthy d.prompt && truthy d.schedule_type
        && truthy d.schedule_value && truthy d.targetJid) = false) :
    scheduleTaskBranch env d sourceGroup isMain st =
      (st, .scheduleIncomplete) := by
  unfold scheduleTaskBranch
  simp [hf]

/-- Schedule branch, unregistered-target path. -/
theorem scheduleBranch_unregistered (env : SchedEnv) (d : IpcData)
    (sourceGroup : String) (isMain : Bool) (st : HostState)
    (hf : (truthy d.prompt && truthy d.schedule_type
        && truthy d.schedule_value && truthy d.targetJid) = true)
    (hg : lookupGroup st.registry (d.targetJid.getD "") = none) :
    scheduleTaskBranch env d sourceGroup isMain st =
      (st, .scheduleTargetUnregistered (d.targetJid.getD "")) := by
  unfold scheduleTaskBranch
  simp [hf, hg]

/-- Schedule branch, ownership-denial path. -/
theorem scheduleBranch_unauthorized (env : SchedEnv) (d : IpcData)
    (sourceGroup : String) (isMain : Bool) (st : HostState)
    (g : RegisteredGroup)
    (hf : (truthy d.prompt && truthy d.schedule_type
        && truthy d.schedule_value && truthy d.targetJid) = true)
    (hg : lookupGroup st.registry (d.targetJid.getD "") = some g)
    (hb : (!isMain && !(g.folder == sourceGroup)) = true) :
    scheduleTaskBranch env d sourceGroup isMain st =
      (st, .scheduleUnauthorized sourceGroup g.folder) := by
  unfold scheduleTaskBranch
  simp only [hf, hg, hb]
  simp

/-- Schedule branch, calculator-failure path. -/
theorem scheduleBranch_calcError (env : SchedEnv) (d : IpcData)
    (sourceGroup : String) (isMain : Bool) (st : HostState)
    (g : RegisteredGroup) (o : TaskOutcome)
    (hf : (truthy d.prompt && truthy d.schedule_type
        && truthy d.schedule_value && truthy d.targetJid) = true)
    (hg : lookupGroup st.registry (d.targetJid.getD "") = some g)
    (hb : (!isMain && !(g.folder == sourceGroup)) = false)
    (hc : computeNextRun env (d.schedule_type.getD "")
        (d.schedule_value.getD "") = .error o) :
    scheduleTaskBranch env d sourceGroup isMain st = (st, o) := by
  unfold scheduleTaskBranch
  simp only [hf, hg, hb, hc]
  simp

/-- Schedule branch, creation path. -/
theorem scheduleBranch_create (env : SchedEnv) (d : IpcData)
    (sourceGroup : String) (isMain : Bool) (st : HostState)
    (g : RegisteredGroup) (nr : Option Int)
    (hf : (truthy d.prompt && truthy d.schedule_type
        && truthy d.schedule_value && truthy d.targetJid) = true)
    (hg : lookupGroup st.registry (d.targetJid.getD "") = some g)
    (hb : (!isMain && !(g.folder == sourceGroup)) = false)
    (hc : computeNextRun env (d.schedule_type.getD "")
        (d.schedule_value.getD "") = .ok nr) :
    scheduleTaskBranch env d sourceGroup isMain st =
      ({ st with tasks :=
          createTask st.tasks (builtTask env d g.folder (d.targetJid.getD "") nr) },
       .taskCreated (builtTask env d g.folder (d.targetJid.getD "") nr)) := by
  unfold scheduleTaskBranch
  simp only [hf, hg, hb, hc]
  simp

/-- Inversion: whenever the schedule branch reports a created task, the
task was appended to the store and its `next_run` is exactly what the
Schedule Calculator returned. -/
theorem scheduleBranch_created_inv (env : SchedEnv) (d : IpcData)
    (sourceGroup : String) (isMain : Bool) (st st2 : HostState) (t : Task)
    (h : scheduleTaskBranch env d sourceGroup isMain st = (st2, .taskCreated t)) :
    st2 = { st with tasks := st.tasks ++ [t] } ∧
    computeNextRun env (d.schedule_type.getD "") (d.schedule_value.getD "")
      = .ok t.next_run := by
  cases hf : (truthy d.prompt && truthy d.schedule_type
      && truthy d.schedule_value && truthy d.targetJid) with
  | false => rw [scheduleBranch_incomplete env d sourceGroup isMain st hf] at h
             simp at h
  | true =>
    cases hg : lookupGroup st.registry (d.targetJid.getD "") with
    | none => rw [scheduleBranch_unregistered env d sourceGroup isMain st hf hg] at h
              simp at h
    | some g =>
      cases hb : (!isMain && !(g.folder == sourceGroup)) with
      | true => rw [scheduleBranch_unauthorized env d sourceGroup isMain st g hf hg hb] at h
                simp at h
      | false =>
        cases hc : computeNextRun env (d.schedule_type.getD "")
            (d.schedule_value.getD "") with
        | error o =>
          rw [scheduleBranch_calcError env d sourceGroup isMain st g o hf hg hb hc] at h
          rcases computeNextRun_error_shape env _ _ o hc with h1 | h1 | h1 <;>
            simp_all
        | ok nr =>
          rw [scheduleBranch_create env d sourceGroup isMain st g nr hf hg hb hc] at h
          simp only [Prod.mk.injEq] at h
          obtain ⟨h1, h2⟩ := h
          injection h2 with h3
          subst h3
          refine ⟨h1.symm ▸ (by simp [createTask]), ?_⟩
          simp [builtTask]

/-- Inversion: whenever the schedule branch does not create a task, the
host state is left unchanged. -/
theorem scheduleBranch_no_create (env : SchedEnv) (d : IpcData)
    (sourceGroup : String) (isMain : Bool) (st st2 : HostState)
    (o : TaskOutcome)
    (h : scheduleTaskBranch env d sourceGroup isMain st = (st2, o))
    (hnc : ∀ t, ¬ o = .taskCreated t) : st2 = st := by
  cases hf : (truthy d.prompt && truthy d.schedule_type
      && truthy d.schedule_value && truthy d.targetJid) with
  | false => rw [scheduleBranch_incomplete env d sourceGroup isMain st hf] at h
             exact (Prod.mk.injEq .. ▸ h).1.symm ▸ rfl
  | true =>
    cases hg : lookupGroup st.registry (d.targetJid.getD "") with
    | none => rw [scheduleBranch_unregistered env d sourceGroup isMain st hf hg] at h
              simp only [Prod.mk.injEq] at h
              exact h.1.symm
    | some g =>
      cases hb : (!isMain && !(g.folder == sourceGroup)) with
      | true => rw [scheduleBranch_unauthorized env d sourceGroup isMain st g hf hg hb] at h
                simp only [Prod.mk.injEq] at h
                exact h.1.symm
      | false =>
        cases hc : computeNextRun env (d.schedule_type.getD "")
            (d.schedule_value.getD "") with
        | error o2 =>
          rw [scheduleBranch_calcError env d sourceGroup isMain st g o2 hf hg hb hc] at h
          simp only [Prod.mk.injEq] at h
          exact h.1.symm
        | ok nr =>
          rw [scheduleBranch_create env d sourceGroup isMain st g nr hf hg hb hc] at h
          simp only [Prod.mk.injEq] at h
          exact absurd h.2.symm (hnc _)

/-! ### Concrete fixtures used by witnesses and counterexamples -/

/-- A registration for jid `g1` owned by tenant folder `alpha`. -/
def exGroup : RegisteredGroup :=
  { name := "G1", folder := "alpha", trigger := "!", added_at := 0,
    requiresTrigger := none, containerConfig := none }

/-- A registration for jid `g2` owned by tenant folder `beta`. -/
def exGroupB : RegisteredGroup :=
  { name := "G2", folder := "beta", trigger := "!", added_at := 0,
    requiresTrigger := none, containerConfig := none }

/-- A task owned by tenant folder `beta`. -/
def exBetaTask : Task :=
  { id := "t9", group_folder := "beta", chat_jid := "g2", prompt := "q",
    schedule_type := "interval", schedule_value := "5",
    context_mode := "isolated", next_run := some 5, status := "active",
    created_at := 0 }

/-- Host state with jids `g1`/`g2` registered and one task owned by
`beta`. -/
def exSt : HostState :=
  { tasks := [exBetaTask], registry := [("g1", exGroup), ("g2", exGroupB)] }

/-- A schedule environment: cron parse succeeds only on `goodcron` (next
occurrence 5000), date parse succeeds only on `1970` (instant -100, in the
past relative to `now = 1000`). -/
def exEnv : SchedEnv :=
  { now := 1000
    cronNext := fun s => if s == "goodcron" then some 5000 else none
    parseDate := fun s => if s == "1970" then some (-100) else none
    freshId := "task-1" }

/-- External collaborators that do not fail. -/
def exDeps : DepsBehavior :=
  { syncFails := false, actionEnv := ⟨false, false, false⟩ }

/-- A complete `schedule_task` request with the unrecognized schedule type
`daily`. -/
def exDataDaily : IpcData :=
  { type := "schedule_task", prompt := some "p",
    schedule_type := some "daily", schedule_value := some "x",
    targetJid := some "g1" }

/-- The Task the code creates from `exDataDaily`: `next_run` is null. -/
def exNullTask : Task :=
  { id := "task-1", group_folder := "alpha", chat_jid := "g1", prompt := "p",
    schedule_type := "daily", schedule_value := "x",
    context_mode := "isolated", next_run := none, status := "active",
    created_at := 1000 }

/-- A `schedule_task` request whose cron expression fails to parse. -/
def exDataBadCron : IpcData :=
  { type := "schedule_task", prompt := some "p",
    schedule_type := some "cron", schedule_value := some "nope",
    targetJid := some "g1" }

/-- A `schedule_task` request with a 60000 ms interval. -/
def exDataInterval : IpcData :=
  { type := "schedule_task", prompt := some "p",
    schedule_type := some "interval", schedule_value := some "60000",
    targetJid := some "g1" }

/-- A one-shot `schedule_task` request whose timestamp parses to the past
instant -100 (before `exEnv.now = 1000`). -/
def exDataOnce : IpcData :=
  { type := "schedule_task", prompt := some "p",
    schedule_type := some "once", schedule_value := some "1970",
    targetJid := some "g1" }

/-! ### Claims -/

/-- C2, counterexample: a complete, authorized `schedule_task` request
whose schedule descriptor (`daily`, `x`) does not yield a valid next-run
instant nevertheless creates a Task, and that Task's `next_run` is null —
refuting both halves of the claim at this input. -/
theorem c2_null_next_run_counterexample :
    computeNextRun exEnv "daily" "x" = .ok none ∧
    processTaskIpc exEnv exDeps exDataDaily "alpha" false exSt =
      .ok ({ exSt with tasks := exSt.tasks ++ [exNullTask] },
           .taskCreated exNullTask) ∧
    exNullTask.next_run = none :=
  ⟨rfl, rfl, rfl⟩

/-- C2 (amended): restricted to the recognized schedule types `cron`,
`interval`, `once`, a created Task always has a non-null `next_run`, and
when schedule computation fails no Task is created and the store is
unchanged.  An unrecognized `schedule_type` instead falls through and
creates a Task with null `next_run`. -/
theorem c2_next_run_amended (env : SchedEnv) (deps : DepsBehavior)
    (d : IpcData) (sourceGroup : String) (isMain : Bool) (st : HostState)
    (hty : d.type = "schedule_task")
    (hrec : d.schedule_type = some "cron" ∨ d.schedule_type = some "interval"
      ∨ d.schedule_type = some "once") :
    (∀ st2 t, processTaskIpc env deps d sourceGroup isMain st
        = .ok (st2, .taskCreated t) →
      (∃ v, t.next_run = some v) ∧ st2.tasks = st.tasks ++ [t])
    ∧ ((∃ o, computeNextRun env (d.schedule_type.getD "")
          (d.schedule_value.getD "") = .error o) →
      ∀ st2 out, processTaskIpc env deps d sourceGroup isMain st
          = .ok (st2, out) →
        st2.tasks = st.tasks ∧ ∀ t, ¬ out = .taskCreated t) := by
  have hgetd : d.schedule_type.getD "" = "cron"
      ∨ d.schedule_type.getD "" = "interval"
      ∨ d.schedule_type.getD "" = "once" := by
    rcases hrec with h | h | h <;> rw [h] <;> simp
  constructor
  · intro st2 t h
    rw [ipcEqSchedule env deps d sourceGroup isMain st hty] at h
    simp only [Except.ok.injEq] at h
    obtain ⟨hst2, hcomp⟩ :=
      scheduleBranch_created_inv env d sourceGroup isMain st st2 t h
    refine ⟨computeNextRun_rec_isSome env _ _ hgetd t.next_run hcomp, ?_⟩
    rw [hst2]
  · rintro ⟨o, ho⟩ st2 out h
    rw [ipcEqSchedule env deps d sourceGroup isMain st hty] at h
    simp only [Except.ok.injEq] at h
    have hnc : ∀ t, ¬ out = .taskCreated t := by
      intro t ht
      subst ht
      obtain ⟨_, hcomp⟩ :=
        scheduleBranch_created_inv env d sourceGroup isMain st st2 t h
      rw [ho] at hcomp
      exact Except.noConfusion hcomp
    refine ⟨?_, hnc⟩
    rw [scheduleBranch_no_create env d sourceGroup isMain st st2 out h hnc]

/-- C2, witness: the amended theorem applied to a bad cron expression —
the store is unchanged and nothing was created. -/
theorem c2_next_run_witness :
    exSt.tasks = exSt.tasks ∧
    ¬ TaskOutcome.scheduleInvalidCron "nope" = .taskCreated exNullTask := by
  have h := (c2_next_run_amended exEnv exDeps exDataBadCron "alpha" false exSt
    rfl (Or.inl rfl)).2 ⟨.scheduleInvalidCron "nope", rfl⟩
    exSt (.scheduleInvalidCron "nope") rfl
  exact ⟨h.1, h.2 exNullTask⟩

/-- C5: for `schedule_type = interval` on an authorized, complete request,
`schedule_value` is parsed with JavaScript `parseInt(·, 10)`; a positive
result `ms` creates a Task with `next_run = now + ms`, and a non-positive
or non-numeric value is rejected with no Task created and the state
unchanged. -/
theorem c5_interval_schedule (env : SchedEnv) (deps : DepsBehavior)
    (d : IpcData) (sourceGroup : String) (isMain : Bool) (st : HostState)
    (g : RegisteredGroup)
    (hty : d.type = "schedule_task")
    (hstype : d.schedule_type = some "interval")
    (hp : truthy d.prompt = true)
    (hsv : truthy d.schedule_value = true)
    (htj : truthy d.targetJid = true)
    (hg : lookupGroup st.registry (d.targetJid.getD "") = some g)
    (hauth : (!isMain && !(g.folder == sourceGroup)) = false) :
    (∀ ms : Int, jsParseInt (d.schedule_value.getD "") = some ms → 0 < ms →
      processTaskIpc env deps d sourceGroup isMain st =
        .ok ({ st with tasks := st.tasks ++
                [builtTask env d g.folder (d.targetJid.getD "")
                  (some (env.now + ms))] },
             .taskCreated (builtTask env d g.folder (d.targetJid.getD "")
               (some (env.now + ms)))))
    ∧ (∀ ms : Int, jsParseInt (d.schedule_value.getD "") = some ms → ms ≤ 0 →
      processTaskIpc env deps d sourceGroup isMain st =
        .ok (st, .scheduleInvalidInterval (d.schedule_value.getD "")))
    ∧ (jsParseInt (d.schedule_value.getD "") = none →
      processTaskIpc env deps d sourceGroup isMain st =
        .ok (st, .scheduleInvalidInterval (d.schedule_value.getD ""))) := by
  have hf : (truthy d.prompt && truthy d.schedule_type
      && truthy d.schedule_value && truthy d.targetJid) = true := by
    simp only [hp, hsv, htj, hstype]
    decide
  have hgetd : d.schedule_type.getD "" = "interval" := by rw [hstype]; rfl
  refine ⟨?_, ?_, ?_⟩
  · intro ms hms hpos
    have hle : ¬ ms ≤ 0 := by omega
    have hc : computeNextRun env (d.schedule_type.getD "")
        (d.schedule_value.getD "") = .ok (some (env.now + ms)) := by
      rw [hgetd]
      unfold computeNextRun
      simp [hms, hle]
    rw [ipcEqSchedule env deps d sourceGroup isMain st hty,
      scheduleBranch_create env d sourceGroup isMain st g _ hf hg hauth hc]
    simp [createTask]
  · intro ms hms hle
    have hc : computeNextRun env (d.schedule_type.getD "")
        (d.schedule_value.getD "")
        = .error (.scheduleInvalidInterval (d.schedule_value.getD "")) := by
      rw [hgetd]
      unfold computeNextRun
      simp [hms, hle]
    rw [ipcEqSchedule env deps d sourceGroup isMain st hty,
      scheduleBranch_calcError env d sourceGroup isMain st g _ hf hg hauth hc]
  · intro hms
    have hc : computeNextRun env (d.schedule_type.getD "")
        (d.schedule_value.getD "")
        = .error (.scheduleInvalidInterval (d.schedule_value.getD "")) := by
      rw [hgetd]
      unfold computeNextRun
      simp [hms]
    rw [ipcEqSchedule env deps d sourceGroup isMain st hty,
      scheduleBranch_calcError env d sourceGroup isMain st g _ hf hg hauth hc]

/-- C5, witness: the interval 60000 from the concrete fixture creates a
Task due at `now + 60000`. -/
theorem c5_interval_witness :
    processTaskIpc exEnv exDeps exDataInterval "main" true exSt =
      .ok ({ exSt with tasks := exSt.tasks ++
              [builtTask exEnv exDataInterval "alpha" "g1" (some 61000)] },
           .taskCreated (builtTask exEnv exDataInterval "alpha" "g1"
             (some 61000))) :=
  (c5_interval_schedule exEnv exDeps exDataInterval "main" true exSt exGroup
    rfl rfl rfl rfl rfl rfl rfl).1 60000 rfl (by decide)

/-- C6: for `schedule_type = once` on an authorized, complete request, any
timestamp the date parser accepts — including one strictly in the past —
becomes `next_run` verbatim, while an unparsable timestamp yields no Task;
for `schedule_type = cron` an unparsable expression yields no Task, and a
parsable one schedules its next occurrence. -/
theorem c6_once_cron_schedule (env : SchedEnv) (deps : DepsBehavior)
    (d : IpcData) (sourceGroup : String) (isMain : Bool) (st : HostState)
    (g : RegisteredGroup)
    (hty : d.type = "schedule_task")
    (hp : truthy d.prompt = true)
    (hsv : truthy d.schedule_value = true)
    (htj : truthy d.targetJid = true)
    (hg : lookupGroup st.registry (d.targetJid.getD "") = some g)
    (hauth : (!isMain && !(g.folder == sourceGroup)) = false) :
    (d.schedule_type = some "once" →
      (∀ inst : Int, env.parseDate (d.schedule_value.getD "") = some inst →
        processTaskIpc env deps d sourceGroup isMain st =
          .ok ({ st with tasks := st.tasks ++
                  [builtTask env d g.folder (d.targetJid.getD "") (some inst)] },
               .taskCreated (builtTask env d g.folder (d.targetJid.getD "")
                 (some inst))))
      ∧ (env.parseDate (d.schedule_value.getD "") = none →
        processTaskIpc env deps d sourceGroup isMain st =
          .ok (st, .scheduleInvalidTimestamp (d.schedule_value.getD ""))))
    ∧ (d.schedule_type = some "cron" →
      (env.cronNext (d.schedule_value.getD "") = none →
        processTaskIpc env deps d sourceGroup isMain st =
          .ok (st, .scheduleInvalidCron (d.schedule_value.getD "")))
      ∧ (∀ inst : Int, env.cronNext (d.schedule_value.getD "") = some inst →
        processTaskIpc env deps d sourceGroup isMain st =
          .ok ({ st with tasks := st.tasks ++
                  [builtTask env d g.folder (d.targetJid.getD "") (some inst)] },
               .taskCreated (builtTask env d g.folder (d.targetJid.getD "")
                 (some inst))))) := by
  constructor
  · intro hstype
    have hf : (truthy d.prompt && truthy d.schedule_type
        && truthy d.schedule_value && truthy d.targetJid) = true := by
      simp only [hp, hsv, htj, hstype]
      decide
    have hgetd : d.schedule_type.getD "" = "once" := by rw [hstype]; rfl
    constructor
    · intro inst hinst
      have hc : computeNextRun env (d.schedule_type.getD "")
          (d.schedule_value.getD "") = .ok (some inst) := by
        rw [hgetd]
        unfold computeNextRun
        simp [hinst]
      rw [ipcEqSchedule env deps d sourceGroup isMain st hty,
        scheduleBranch_create env d sourceGroup isMain st g _ hf hg hauth hc]
      simp [createTask]
    · intro hinst
      have hc : computeNextRun env (d.schedule_type.getD "")
          (d.schedule_value.getD "")
          = .error (.scheduleInvalidTimestamp (d.schedule_value.getD "")) := by
        rw [hgetd]
        unfold computeNextRun
        simp [hinst]
      rw [ipcEqSchedule env deps d sourceGroup isMain st hty,
        scheduleBranch_calcError env d sourceGroup isMain st g _ hf hg hauth hc]
  · intro hstype
    have hf : (truthy d.prompt && truthy d.schedule_type
        && truthy d.schedule_value && truthy d.targetJid) = true := by
      simp only [hp, hsv, htj, hstype]
      decide
    have hgetd : d.schedule_type.getD "" = "cron" := by rw [hstype]; rfl
    constructor
    · intro hcron
      have hc : computeNextRun env (d.schedule_type.getD "")
          (d.schedule_value.getD "")
          = .error (.scheduleInvalidCron (d.schedule_value.getD "")) := by
        rw [hgetd]
        unfold computeNextRun
        simp [hcron]
      rw [ipcEqSchedule env deps d sourceGroup isMain st hty,
        scheduleBranch_calcError env d sourceGroup isMain st g _ hf hg hauth hc]
    · intro inst hcron
      have hc : computeNextRun env (d.schedule_type.getD "")
          (d.schedule_value.getD "") = .ok (some inst) := by
        rw [hgetd]
        unfold computeNextRun
        simp [hcron]
      rw [ipcEqSchedule env deps d sourceGroup isMain st hty,
        scheduleBranch_create env d sourceGroup isMain st g _ hf hg hauth hc]
      simp [createTask]

/-- C6, witness: the one-shot timestamp parsing to -100 — strictly before
`now = 1000` — is accepted verbatim as `next_run`. -/
theorem c6_once_cron_witness :
    processTaskIpc exEnv exDeps exDataOnce "alpha" false exSt =
      .ok ({ exSt with tasks := exSt.tasks ++
              [builtTask exEnv exDataOnce "alpha" "g1" (some (-100))] },
           .taskCreated (builtTask exEnv exDataOnce "alpha" "g1"
             (some (-100)))) ∧
    (-100 : Int) < exEnv.now :=
  ⟨((c6_once_cron_schedule exEnv exDeps exDataOnce "alpha" false exSt exGroup
      rfl rfl rfl rfl rfl rfl).1 rfl).1 (-100) rfl, by decide⟩

/-- C8: an authorized `schedule_task` whose target resolves to a
registered group and whose descriptor yields instant `nr` creates exactly
the Task built by the branch: `group_folder` is the target group's folder,
`chat_jid` is the target jid, status is `active`, `next_run` is `nr`, and
`context_mode` is the payload's value when it is `group` or `isolated` and
`isolated` otherwise. -/
theorem c8_created_task_fields (env : SchedEnv) (deps : DepsBehavior)
    (d : IpcData) (sourceGroup : String) (isMain : Bool) (st : HostState)
    (g : RegisteredGroup) (nr : Int)
    (hty : d.type = "schedule_task")
    (hp : truthy d.prompt = true)
    (hst : truthy d.schedule_type = true)
    (hsv : truthy d.schedule_value = true)
    (htj : truthy d.targetJid = true)
    (hg : lookupGroup st.registry (d.targetJid.getD "") = some g)
    (hauth : (!isMain && !(g.folder == sourceGroup)) = false)
    (hc : computeNextRun env (d.schedule_type.getD "")
        (d.schedule_value.getD "") = .ok (some nr)) :
    processTaskIpc env deps d sourceGroup isMain st =
      .ok ({ st with tasks := st.tasks ++
              [builtTask env d g.folder (d.targetJid.getD "") (some nr)] },
           .taskCreated (builtTask env d g.folder (d.targetJid.getD "")
             (some nr)))
    ∧ (builtTask env d g.folder (d.targetJid.getD "") (some nr)).group_folder
        = g.folder
    ∧ (builtTask env d g.folder (d.targetJid.getD "") (some nr)).chat_jid
        = d.targetJid.getD ""
    ∧ (builtTask env d g.folder (d.targetJid.getD "") (some nr)).status
        = "active"
    ∧ (builtTask env d g.folder (d.targetJid.getD "") (some nr)).next_run
        = some nr
    ∧ (builtTask env d g.folder (d.targetJid.getD "") (some nr)).context_mode
        = (if d.context_mode = some "group" ∨ d.context_mode = some "isolated"
           then d.context_mode.getD "isolated" else "isolated") := by
  have hf : (truthy d.prompt && truthy d.schedule_type
      && truthy d.schedule_value && truthy d.targetJid) = true := by
    simp [hp, hst, hsv, htj]
  refine ⟨?_, by simp [builtTask], by simp [builtTask], by simp [builtTask],
    by simp [builtTask], ?_⟩
  · rw [ipcEqSchedule env deps d sourceGroup isMain st hty,
      scheduleBranch_create env d sourceGroup isMain st g _ hf hg hauth hc]
    simp [createTask]
  · simp only [builtTask]
    split <;> split <;> simp_all

/-- C8, witness: the main tenant schedules for jid `g1`; the created Task
carries the target's folder `alpha`, not the requester's folder `main`. -/
theorem c8_created_task_witness :
    processTaskIpc exEnv exDeps exDataInterval "main" true exSt =
      .ok ({ exSt with tasks := exSt.tasks ++
              [builtTask exEnv exDataInterval "alpha" "g1" (some 61000)] },
           .taskCreated (builtTask exEnv exDataInterval "alpha" "g1"
             (some 61000)))
    ∧ (builtTask exEnv exDataInterval "alpha" "g1" (some 61000)).group_folder
        = "alpha"
    ∧ (builtTask exEnv exDataInterval "alpha" "g1" (some 61000)).status
        = "active" := by
  have h := c8_created_task_fields exEnv exDeps exDataInterval "main" true
    exSt exGroup 61000 rfl rfl rfl rfl rfl rfl rfl rfl
  exact ⟨h.1, h.2.1, h.2.2.2.1⟩

/-- C4: for `pause_task` / `resume_task` / `cancel_task` carrying a
(truthy) `taskId`, the mutation happens exactly when the task exists and
the requester is main or owns the task's `group_folder`; a missing id or
failed ownership check is a denial that leaves the state untouched, and
the branch always returns normally (`.ok`), never an exception. -/
theorem c4_control_ops (env : SchedEnv) (deps : DepsBehavior) (d : IpcData)
    (sourceGroup : String) (isMain : Bool) (st : HostState)
    (hid : truthy d.taskId = true) :
    (d.type = "pause_task" →
      (∀ task, getTaskById st.tasks (d.taskId.getD "") = some task →
        ((isMain || task.group_folder == sourceGroup) = true →
          processTaskIpc env deps d sourceGroup isMain st =
            .ok ({ st with tasks :=
                    updateTaskStatus st.tasks (d.taskId.getD "") "paused" },
                 .ctlDone .pause (d.taskId.getD "")))
        ∧ ((isMain || task.group_folder == sourceGroup) = false →
          processTaskIpc env deps d sourceGroup isMain st =
            .ok (st, .ctlDenied .pause (d.taskId.getD ""))))
      ∧ (getTaskById st.tasks (d.taskId.getD "") = none →
        processTaskIpc env deps d sourceGroup isMain st =
          .ok (st, .ctlDenied .pause (d.taskId.getD ""))))
    ∧ (d.type = "resume_task" →
      (∀ task, getTaskById st.tasks (d.taskId.getD "") = some task →
        ((isMain || task.group_folder == sourceGroup) = true →
          processTaskIpc env deps d sourceGroup isMain st =
            .ok ({ st with tasks :=
                    updateTaskStatus st.tasks (d.taskId.getD "") "active" },
                 .ctlDone .resume (d.taskId.getD "")))
        ∧ ((isMain || task.group_folder == sourceGroup) = false →
          processTaskIpc env deps d sourceGroup isMain st =
            .ok (st, .ctlDenied .resume (d.taskId.getD ""))))
      ∧ (getTaskById st.tasks (d.taskId.getD "") = none →
        processTaskIpc env deps d sourceGroup isMain st =
          .ok (st, .ctlDenied .resume (d.taskId.getD ""))))
    ∧ (d.type = "cancel_task" →
      (∀ task, getTaskById st.tasks (d.taskId.getD "") = some task →
        ((isMain || task.group_folder == sourceGroup) = true →
          processTaskIpc env deps d sourceGroup isMain st =
            .ok ({ st with tasks := deleteTask st.tasks (d.taskId.getD "") },
                 .ctlDone .cancel (d.taskId.getD "")))
        ∧ ((isMain || task.group_folder == sourceGroup) = false →
          processTaskIpc env deps d sourceGroup isMain st =
            .ok (st, .ctlDenied .cancel (d.taskId.getD ""))))
      ∧ (getTaskById st.tasks (d.taskId.getD "") = none →
        processTaskIpc env deps d sourceGroup isMain st =
          .ok (st, .ctlDenied .cancel (d.taskId.getD "")))) := by
  refine ⟨fun hty => ⟨fun task htask => ⟨fun hok => ?_, fun hno => ?_⟩,
      fun hnone => ?_⟩,
    fun hty => ⟨fun task htask => ⟨fun hok => ?_, fun hno => ?_⟩,
      fun hnone => ?_⟩,
    fun hty => ⟨fun task htask => ⟨fun hok => ?_, fun hno => ?_⟩,
      fun hnone => ?_⟩⟩
  · rw [ipcEqPause env deps d sourceGroup isMain st hty]
    unfold pauseTaskBranch
    simp [hid, htask, hok]
  · rw [ipcEqPause env deps d sourceGroup isMain st hty]
    unfold pauseTaskBranch
    simp [hid, htask, hno]
  · rw [ipcEqPause env deps d sourceGroup isMain st hty]
    unfold pauseTaskBranch
    simp [hid, hnone]
  · rw [ipcEqResume env deps d sourceGroup isMain st hty]
    unfold resumeTaskBranch
    simp [hid, htask, hok]
  · rw [ipcEqResume env deps d sourceGroup isMain st hty]
    unfold resumeTaskBranch
    simp [hid, htask, hno]
  · rw [ipcEqResume env deps d sourceGroup isMain st hty]
    unfold resumeTaskBranch
    simp [hid, hnone]
  · rw [ipcEqCancel env deps d sourceGroup isMain st hty]
    unfold cancelTaskBranch
    simp [hid, htask, hok]
  · rw [ipcEqCancel env deps d sourceGroup isMain st hty]
    unfold cancelTaskBranch
    simp [hid, htask, hno]
  · rw [ipcEqCancel env deps d sourceGroup isMain st hty]
    unfold cancelTaskBranch
    simp [hid, hnone]

/-- A `pause_task` request for the task `t9` (owned by `beta`). -/
def exDataPause : IpcData := { type := "pause_task", taskId := some "t9" }

/-- A `pause_task` request for a task id that does not exist. -/
def exDataPauseGhost : IpcData :=
  { type := "pause_task", taskId := some "zzz" }

/-- C4, witness: tenant `alpha` pausing the `beta`-owned task `t9` is a
no-op denial, as is pausing a non-existent id. -/
theorem c4_control_ops_witness :
    processTaskIpc exEnv exDeps exDataPause "alpha" false exSt =
      .ok (exSt, .ctlDenied .pause "t9")
    ∧ processTaskIpc exEnv exDeps exDataPauseGhost "alpha" false exSt =
      .ok (exSt, .ctlDenied .pause "zzz") := by
  have h1 := (c4_control_ops exEnv exDeps exDataPause "alpha" false exSt
    rfl).1 rfl
  have h2 := (c4_control_ops exEnv exDeps exDataPauseGhost "alpha" false exSt
    rfl).1 rfl
  exact ⟨(h1.1 exBetaTask rfl).2 rfl, h2.2 rfl⟩

/-- C9: `register_group` from a non-main tenant is always denied with no
registry change, for any payload; from the main tenant the registry upsert
happens exactly when `jid`, `name`, `folder`, `trigger` are all present
(truthy), and otherwise nothing is mutated. -/
theorem c9_register_group (env : SchedEnv) (deps : DepsBehavior)
    (d : IpcData) (sourceGroup : String) (isMain : Bool) (st : HostState)
    (hty : d.type = "register_group") :
    (isMain = false →
      processTaskIpc env deps d sourceGroup isMain st =
        .ok (st, .registerDenied))
    ∧ (isMain = true →
      ((truthy d.jid && truthy d.name && truthy d.folder
          && truthy d.trigger) = true →
        processTaskIpc env deps d sourceGroup isMain st =
          .ok ({ st with registry :=
                            registerGroupUpsert st.registry (d.jid.getD "")
                              (RegisteredGroup.mk (d.name.getD "")
                                (d.folder.getD "") (d.trigger.getD "")
                                env.now d.requiresTrigger
                                d.containerConfig) },
               .registerDone (d.jid.getD "")))
      ∧ ((truthy d.jid && truthy d.name && truthy d.folder
          && truthy d.trigger) = false →
        processTaskIpc env deps d sourceGroup isMain st =
          .ok (st, .registerInvalid))) := by
  refine ⟨fun hm => ?_, fun hm => ⟨fun hfields => ?_, fun hfields => ?_⟩⟩
  · rw [ipcEqRegister env deps d sourceGroup isMain st hty]
    unfold registerGroupBranch
    simp [hm]
  · rw [ipcEqRegister env deps d sourceGroup isMain st hty]
    unfold registerGroupBranch
    simp [hm, hfields]
  · rw [ipcEqRegister env deps d sourceGroup isMain st hty]
    unfold registerGroupBranch
    simp [hm, hfields]

/-- A complete `register_group` payload. -/
def exDataRegister : IpcData :=
  { type := "register_group", jid := some "g3", name := some "G3",
    folder := some "gamma", trigger := some "!" }

/-- C9, witness: a non-main tenant's `register_group` with all fields
present is still denied with no registry mutation. -/
theorem c9_register_group_witness :
    processTaskIpc exEnv exDeps exDataRegister "alpha" false exSt =
      .ok (exSt, .registerDenied) :=
  (c9_register_group exEnv exDeps exDataRegister "alpha" false exSt rfl).1 rfl

/-- C10: every action-type request returns normally with the host state
untouched — all handler failures (missing OAuth files, missing required
fields, API errors) are swallowed into an `ActionLog` — so the request
file is always deleted and never quarantined, and neither the Task Store
nor the registry changes. -/
theorem c10_action_handlers (env : SchedEnv) (deps : DepsBehavior)
    (d : IpcData) (sourceGroup : String) (isMain : Bool) (st : HostState)
    (file : String)
    (hty : d.type = "send_gmail" ∨ d.type = "list_calendar_events"
      ∨ d.type = "get_calendar_event" ∨ d.type = "create_calendar_event"
      ∨ d.type = "update_calendar_event" ∨ d.type = "delete_calendar_event") :
    ∃ log : ActionLog,
      processTaskIpc env deps d sourceGroup isMain st =
        .ok (st, .actionDone d.type log)
      ∧ handleTaskFile env deps sourceGroup isMain st file (some d) =
        (st, .deleted, some (.actionDone d.type log)) := by
  rcases hty with h | h | h | h | h | h
  · have h1 : processTaskIpc env deps d sourceGroup isMain st =
        .ok (st, .actionDone d.type (processSendGmail deps.actionEnv d)) := by
      unfold processTaskIpc
      rw [h]
      split <;> simp_all
    exact ⟨_, h1, by simp [handleTaskFile, h1]⟩
  · have h1 : processTaskIpc env deps d sourceGroup isMain st =
        .ok (st, .actionDone d.type
          (processListCalendarEvents deps.actionEnv d)) := by
      unfold processTaskIpc
      rw [h]
      split <;> simp_all
    exact ⟨_, h1, by simp [handleTaskFile, h1]⟩
  · have h1 : processTaskIpc env deps d sourceGroup isMain st =
        .ok (st, .actionDone d.type
          (processGetCalendarEvent deps.actionEnv d)) := by
      unfold processTaskIpc
      rw [h]
      split <;> simp_all
    exact ⟨_, h1, by simp [handleTaskFile, h1]⟩
  · have h1 : processTaskIpc env deps d sourceGroup isMain st =
        .ok (st, .actionDone d.type
          (processCreateCalendarEvent deps.actionEnv d)) := by
      unfold processTaskIpc
      rw [h]
      split <;> simp_all
    exact ⟨_, h1, by simp [handleTaskFile, h1]⟩
  · have h1 : processTaskIpc env deps d sourceGroup isMain st =
        .ok (st, .actionDone d.type
          (processUpdateCalendarEvent deps.actionEnv d)) := by
      unfold processTaskIpc
      rw [h]
      split <;> simp_all
    exact ⟨_, h1, by simp [handleTaskFile, h1]⟩
  · have h1 : processTaskIpc env deps d sourceGroup isMain st =
        .ok (st, .actionDone d.type
          (processDeleteCalendarEvent deps.actionEnv d)) := by
      unfold processTaskIpc
      rw [h]
      split <;> simp_all
    exact ⟨_, h1, by simp [handleTaskFile, h1]⟩

/-- A `send_gmail` request (fields beyond `type` are irrelevant to the
control flow of the handler). -/
def exDataGmail : IpcData := { type := "send_gmail" }

/-- C10, witness: a `send_gmail` request with OAuth unconfigured is
swallowed, the state is unchanged and the file is deleted. -/
theorem c10_action_handlers_witness :
    processTaskIpc exEnv exDeps exDataGmail "alpha" false exSt =
      .ok (exSt, .actionDone exDataGmail.type .oauthMissing)
    ∧ handleTaskFile exEnv exDeps "alpha" false exSt "f.json"
        (some exDataGmail) =
      (exSt, .deleted, some (.actionDone exDataGmail.type .oauthMissing)) := by
  obtain ⟨log, h1, h2⟩ := c10_action_handlers exEnv exDeps exDataGmail
    "alpha" false exSt "f.json" (Or.inl rfl)
  have heval : processTaskIpc exEnv exDeps exDataGmail "alpha" false exSt =
      .ok (exSt, .actionDone exDataGmail.type .oauthMissing) := rfl
  have h3 := heval.symm.trans h1
  injection h3 with h4
  injection h4 with h5 h6
  injection h6 with h7 h8
  subst h8
  exact ⟨h1, h2⟩

/-- C7: a well-formed `message` file is dispatched to the external send
function — with the fixed `ASSISTANT_NAME: ` display prefix on the text —
exactly when the requester is main or the registered group of the target
`chatJid` has the requester's folder; a main requester is never blocked,
and a blocked request performs no send. -/
theorem c7_message_dispatch (assistantName : String) (registry : Registry)
    (sendOk : String → String → Bool) (md : MsgData) (sourceGroup : String)
    (isMain : Bool)
    (hshape : (md.type == "message" && truthy md.chatJid
        && truthy md.text) = true) :
    ((processMessage assistantName registry sendOk md sourceGroup isMain =
        .sentOk (md.chatJid.getD "") (assistantName ++ ": " ++ md.text.getD "")
      ∨ processMessage assistantName registry sendOk md sourceGroup isMain =
        .sendFailed (md.chatJid.getD "")
          (assistantName ++ ": " ++ md.text.getD ""))
      ↔ (isMain = true
          ∨ ∃ g, lookupGroup registry (md.chatJid.getD "") = some g
              ∧ g.folder = sourceGroup))
    ∧ (isMain = true →
        ∀ j, ¬ processMessage assistantName registry sendOk md sourceGroup
            isMain = .blocked j)
    ∧ (∀ j, processMessage assistantName registry sendOk md sourceGroup
          isMain = .blocked j →
        ∀ jid txt, ¬ processMessage assistantName registry sendOk md
            sourceGroup isMain = .sentOk jid txt) := by
  unfold processMessage
  simp only [hshape, if_true]
  cases hm : isMain
  · cases hg : lookupGroup registry (md.chatJid.getD "")
    · simp [hg]
    · rename_i g
      cases hf : (g.folder == sourceGroup)
      · simp [hg, hf, ne_of_beq_false hf]
      · cases hs : sendOk (md.chatJid.getD "")
            (assistantName ++ ": " ++ md.text.getD "") <;>
          simp [hg, hf, hs, eq_of_beq hf]
  · cases hs : sendOk (md.chatJid.getD "")
        (assistantName ++ ": " ++ md.text.getD "") <;> simp [hs]

/-- A well-formed messages-channel request targeting `g1`. -/
def exMsg : MsgData :=
  { type := "message", chatJid := some "g1", text := some "hi" }

/-- C7, witness: tenant `alpha` owns `g1`, so the message goes out with
the display prefix; and a main requester is never blocked. -/
theorem c7_message_witness :
    processMessage "Andy" exSt.registry (fun _ _ => true) exMsg "alpha"
      false = .sentOk "g1" "Andy: hi"
    ∧ ¬ processMessage "Andy" exSt.registry (fun _ _ => true) exMsg "zeta"
        true = .blocked "g1" := by
  constructor
  · have h := (c7_message_dispatch "Andy" exSt.registry (fun _ _ => true)
      exMsg "alpha" false rfl).1
    rcases h.mpr (Or.inr ⟨exGroup, rfl, rfl⟩) with h1 | h1
    · exact h1
    · exact absurd h1 (by decide)
  · exact (c7_message_dispatch "Andy" exSt.registry (fun _ _ => true)
      exMsg "zeta" true rfl).2.1 rfl "g1"

/-- C1: identity and privilege come only from the mailbox directory —
`isMain` is exactly the directory-name comparison, the task and message
processors are invariant under arbitrary changes to every
identity-claiming payload field (`groupFolder`, `jid`, `chatJid`, and the
registration fields) for a non-main requester, and a non-main request
whose target jid resolves to a folder other than `sourceGroup` is denied:
no task is created, the state is unchanged, and no message is sent,
regardless of payload content. -/
theorem c1_identity_from_directory (env : SchedEnv) (deps : DepsBehavior)
    (d : IpcData) (md : MsgData) (assistantName : String)
    (sendOk : String → String → Bool) (sourceGroup mainGroupFolder : String)
    (st : HostState)
    (gf j cj nm fl tr : Option String) (rt : Option Bool) (cc : Option String)
    (mgf mj mtj : Option String) :
    isMainOf mainGroupFolder sourceGroup = (sourceGroup == mainGroupFolder)
    ∧ processTaskIpc env deps
        { d with groupFolder := gf, jid := j, chatJid := cj, name := nm,
                 folder := fl, trigger := tr, requiresTrigger := rt,
                 containerConfig := cc } sourceGroup false st
      = processTaskIpc env deps d sourceGroup false st
    ∧ processMessage assistantName st.registry sendOk
        { md with groupFolder := mgf, jid := mj, targetJid := mtj }
        sourceGroup false
      = processMessage assistantName st.registry sendOk md sourceGroup false
    ∧ (∀ g, d.type = "schedule_task" →
        lookupGroup st.registry (d.targetJid.getD "") = some g →
        ¬ g.folder = sourceGroup →
        ∃ out, processTaskIpc env deps d sourceGroup false st = .ok (st, out)
          ∧ ∀ t, ¬ out = .taskCreated t)
    ∧ (∀ g, lookupGroup st.registry (md.chatJid.getD "") = some g →
        ¬ g.folder = sourceGroup →
        ∀ jid txt,
          ¬ processMessage assistantName st.registry sendOk md sourceGroup
              false = .sentOk jid txt
          ∧ ¬ processMessage assistantName st.registry sendOk md sourceGroup
              false = .sendFailed jid txt) := by
  refine ⟨rfl, ?_, ?_, ?_, ?_⟩
  · obtain ⟨ty, tid, pr, sty, sv, cm, gf0, cj0, tj, j0, nm0, fl0, tr0, rt0,
      cc0, eid, sm, stt, ef⟩ := d
    rfl
  · obtain ⟨ty, cj0, tx, gf0, j0, tj0⟩ := md
    rfl
  · intro g hty hg hne
    rw [ipcEqSchedule env deps d sourceGroup false st hty]
    cases hf : (truthy d.prompt && truthy d.schedule_type
        && truthy d.schedule_value && truthy d.targetJid)
    · exact ⟨.scheduleIncomplete,
        by rw [scheduleBranch_incomplete env d sourceGroup false st hf],
        by simp⟩
    · have hb : (!false && !(g.folder == sourceGroup)) = true := by
        simp [hne]
      exact ⟨.scheduleUnauthorized sourceGroup g.folder,
        by rw [scheduleBranch_unauthorized env d sourceGroup false st g hf hg hb],
        by simp⟩
  · intro g hg hne jid txt
    unfold processMessage
    cases hc : (md.type == "message" && truthy md.chatJid && truthy md.text)
    · simp [hc]
    · have hf : (g.folder == sourceGroup) = false := beq_eq_false_iff_ne.mpr hne
      simp [hc, hg, hf]

/-- A `schedule_task` request from which the spoofed identity fields are
absent: it targets `g2`, owned by tenant `beta`. -/
def exDataCrossStripped : IpcData :=
  { type := "schedule_task", prompt := some "p",
    schedule_type := some "interval", schedule_value := some "60000",
    targetJid := some "g2" }

/-- The same request with payload fields claiming to be tenant `beta`. -/
def exDataCross : IpcData :=
  { exDataCrossStripped with
    groupFolder := some "beta", jid := some "claim" }

/-- A message request from which tenant `alpha` targets `beta`-owned
`g2`. -/
def exMsgCross : MsgData :=
  { type := "message", chatJid := some "g2", text := some "hi" }

/-- C1, witness: the spoofed payload decides nothing — tenant `alpha`
targeting `beta`-owned `g2` gets the same (denying) result with or
without the spoofed fields, and the cross-tenant message is not sent. -/
theorem c1_identity_witness :
    processTaskIpc exEnv exDeps exDataCross "alpha" false exSt
      = processTaskIpc exEnv exDeps exDataCrossStripped "alpha" false exSt
    ∧ processTaskIpc exEnv exDeps exDataCrossStripped "alpha" false exSt
      = .ok (exSt, .scheduleUnauthorized "alpha" "beta")
    ∧ ¬ processMessage "Andy" exSt.registry (fun _ _ => true) exMsgCross
        "alpha" false = .sentOk "g2" "Andy: hi" := by
  have h := c1_identity_from_directory exEnv exDeps exDataCrossStripped
    exMsgCross "Andy" (fun _ _ => true) "alpha" "main" exSt
    (some "beta") (some "claim") none none none none none none
    none none none
  exact ⟨h.2.1, rfl,
    (h.2.2.2.2 exGroupB rfl (by decide) "g2" "Andy: hi").1⟩

/-- One disposal per listed file: the cycle fold produces exactly the
input file names, in order, each paired with a single `Disposal`. -/
theorem processTaskFiles_names (env : SchedEnv) (deps : DepsBehavior)
    (sourceGroup : String) (isMain : Bool) :
    ∀ (files : List (String × Option IpcData)) (st : HostState),
      (processTaskFiles env deps sourceGroup isMain st files).2.map Prod.fst
        = files.map Prod.fst := by
  intro files
  induction files with
  | nil => intro st; rfl
  | cons f rest ih =>
    intro st
    unfold processTaskFiles
    simp [ih]

/-- C3: at-most-once disposal with the delete/quarantine asymmetry — on
each channel a processed file gets exactly one disposal; it is quarantined
(as `sourceGroup-file`) precisely on a parse failure or a thrown
processing failure; normal completion — including every authorization
denial — deletes the file; and a poll cycle assigns one disposal per
listed file. -/
theorem c3_at_most_once_disposal (env : SchedEnv) (deps : DepsBehavior)
    (assistantName : String) (registry : Registry)
    (sendOk : String → String → Bool)
    (sourceGroup : String) (isMain : Bool) (st : HostState)
    (file : String) (content : Option IpcData) (mcontent : Option MsgData)
    (files : List (String × Option IpcData)) :
    Disposal.deleted ≠ .quarantined (sourceGroup ++ "-" ++ file)
    ∧ ((handleTaskFile env deps sourceGroup isMain st file content).2.1
        = .deleted
      ∨ (handleTaskFile env deps sourceGroup isMain st file content).2.1
        = .quarantined (sourceGroup ++ "-" ++ file))
    ∧ ((handleTaskFile env deps sourceGroup isMain st file content).2.1
        = .quarantined (sourceGroup ++ "-" ++ file)
      ↔ (content = none ∨ ∃ d, content = some d
          ∧ processTaskIpc env deps d sourceGroup isMain st = .error ()))
    ∧ (∀ d st2 o, content = some d →
        processTaskIpc env deps d sourceGroup isMain st = .ok (st2, o) →
        (handleTaskFile env deps sourceGroup isMain st file content).2.1
          = .deleted)
    ∧ ((handleMessageFile assistantName registry sendOk sourceGroup isMain
          file mcontent).1 = .deleted
      ∨ (handleMessageFile assistantName registry sendOk sourceGroup isMain
          file mcontent).1 = .quarantined (sourceGroup ++ "-" ++ file))
    ∧ ((handleMessageFile assistantName registry sendOk sourceGroup isMain
          file mcontent).1 = .quarantined (sourceGroup ++ "-" ++ file)
      ↔ (mcontent = none ∨ ∃ m jid txt, mcontent = some m
          ∧ processMessage assistantName registry sendOk m sourceGroup isMain
            = .sendFailed jid txt))
    ∧ (∀ m j, mcontent = some m →
        processMessage assistantName registry sendOk m sourceGroup isMain
          = .blocked j →
        (handleMessageFile assistantName registry sendOk sourceGroup isMain
          file mcontent).1 = .deleted)
    ∧ (processTaskFiles env deps sourceGroup isMain st files).2.map Prod.fst
        = files.map Prod.fst := by
  refine ⟨by simp, ?_, ?_, ?_, ?_, ?_, ?_,
    processTaskFiles_names env deps sourceGroup isMain files st⟩
  · cases content with
    | none => simp [handleTaskFile]
    | some d =>
      cases hpr : processTaskIpc env deps d sourceGroup isMain st with
      | ok r => simp [handleTaskFile, hpr]
      | error e => simp [handleTaskFile, hpr]
  · cases content with
    | none => simp [handleTaskFile]
    | some d =>
      cases hpr : processTaskIpc env deps d sourceGroup isMain st with
      | ok r => simp [handleTaskFile, hpr]
      | error e => simp [handleTaskFile, hpr]
  · intro d st2 o hc hpr
    subst hc
    simp [handleTaskFile, hpr]
  · cases mcontent with
    | none => simp [handleMessageFile]
    | some m =>
      cases hpm : processMessage assistantName registry sendOk m sourceGroup
          isMain with
      | sentOk jid txt => simp [handleMessageFile, hpm]
      | sendFailed jid txt => simp [handleMessageFile, hpm]
      | blocked jid => simp [handleMessageFile, hpm]
      | skipped => simp [handleMessageFile, hpm]
  · cases mcontent with
    | none => simp [handleMessageFile]
    | some m =>
      cases hpm : processMessage assistantName registry sendOk m sourceGroup
          isMain with
      | sentOk jid txt => simp [handleMessageFile, hpm]
      | sendFailed jid txt => simp [handleMessageFile, hpm]
      | blocked jid => simp [handleMessageFile, hpm]
      | skipped => simp [handleMessageFile, hpm]
  · intro m j hm hpm
    subst hm
    simp [handleMessageFile, hpm]

/-- External collaborators whose metadata resync throws. -/
def exDepsFail : DepsBehavior :=
  { syncFails := true, actionEnv := ⟨false, false, false⟩ }

/-- A `refresh_groups` request. -/
def exDataRefresh : IpcData := { type := "refresh_groups" }

/-- C3, witness: an authorization denial is deleted without quarantine, a
thrown processing failure is quarantined under the tenant-prefixed name,
and an unparsable message file is quarantined likewise. -/
theorem c3_disposal_witness :
    (handleTaskFile exEnv exDeps "alpha" false exSt "f.json"
        (some exDataPause)).2.1 = .deleted
    ∧ (handleTaskFile exEnv exDepsFail "main" true exSt "f.json"
        (some exDataRefresh)).2.1 = .quarantined "main-f.json"
    ∧ (handleMessageFile "Andy" exSt.registry (fun _ _ => true) "alpha"
        false "f.json" none).1 = .quarantined "alpha-f.json" := by
  have h1 := c3_at_most_once_disposal exEnv exDeps "Andy" exSt.registry
    (fun _ _ => true) "alpha" false exSt "f.json" (some exDataPause) none []
  have h2 := c3_at_most_once_disposal exEnv exDepsFail "Andy" exSt.registry
    (fun _ _ => true) "main" true exSt "f.json" (some exDataRefresh) none []
  exact ⟨h1.2.2.2.1 exDataPause exSt (.ctlDenied .pause "t9") rfl rfl,
    h2.2.2.1.mpr (Or.inr ⟨exDataRefresh, rfl, rfl⟩),
    h1.2.2.2.2.2.1.mpr (Or.inl rfl)⟩

end Nanoclaw
